import Mathlib

/-
Verification of the Thuli fashion-recommendation system.

The repository ships a React Native client (app/ThuliApp) and documents a
FastAPI backend (backend/fashion_api.py) that is not part of the included
sources.  The backend engine (AttributeSpace, PreferenceVectorBuilder,
CandidateFilter, Retriever, SeenTracker, OnlineLearner) is therefore
modelled from the specification; the client-side logic (image fallback,
feedback tab, service-cache behaviour) is embedded from the TypeScript
sources in src/.

Real numbers of the implementation are modelled as rationals.
-/

namespace Thuli

/-- Modelled from the spec: the AttributeSpace is an ordered sequence of 463
attribute names; its size fixes the dimension of every vector. -/
def attributeSpaceSize : Nat := 463

/-- Gender tags accepted by the engine. -/
inductive Gender
  | men
  | women
deriving DecidableEq, Repr

/-- Parse the gender string of a request; MEN and WOMEN are the recognized
values, anything else is an unrecognized gender. -/
def parseGender : String → Option Gender
  | "MEN" => some Gender.men
  | "WOMEN" => some Gender.women
  | _ => none

/-- Display name of a gender tag, as used in attribute names. -/
def genderName : Gender → String
  | Gender.men => "MEN"
  | Gender.women => "WOMEN"

/-- Feedback actions of the engine. -/
inductive FeedbackAction
  | like
  | dislike
  | superlike
deriving DecidableEq, Repr

/-- Error taxonomy of the engine (spec section 7). -/
inductive Err
  | dimensionMismatch
  | invalidInput
deriving DecidableEq, Repr

/-- Modelled from the spec: the OnlineLearner learning rate, 0.1. -/
def learningRate : ℚ := 1/10

/-- Modelled from the spec: the superlike weight, 2.5. -/
def superlikeWeight : ℚ := 5/2

/-- Modelled from the spec: OnlineLearner.applyAction moves the preference
vector toward (like, superlike) or away from (dislike) the item vector by a
moving-average step; no renormalization afterwards; DimensionMismatch when
the lengths disagree. -/
def applyAction (pref item : List ℚ) (a : FeedbackAction) : Except Err (List ℚ) :=
  if pref.length ≠ item.length then
    Except.error Err.dimensionMismatch
  else
    match a with
    | FeedbackAction.like =>
        Except.ok (List.zipWith (fun p i => (1 - learningRate) * p + learningRate * i) pref item)
    | FeedbackAction.dislike =>
        Except.ok (List.zipWith (fun p i => (1 - learningRate) * p - learningRate * i) pref item)
    | FeedbackAction.superlike =>
        Except.ok (List.zipWith
          (fun p i => (1 - learningRate * superlikeWeight) * p + (learningRate * superlikeWeight) * i)
          pref item)

/-- A catalog item: id, attribute vector, gender tag, category tags and
image-path candidates (spec data model). -/
structure CatalogItem where
  itemId : String
  vector : List ℚ
  gender : Gender
  categories : List String
  imagePaths : List String
deriving DecidableEq, Repr

/-- The static engine data loaded at startup: the ordered attribute names and
the item catalog in insertion order. -/
structure Engine where
  attributeNames : List String
  catalog : List CatalogItem

/-- Modelled from the spec: CandidateFilter returns the catalog items whose
gender tag matches and whose category tags intersect the requested set; pure,
independent of any seen-set. -/
def candidateFilter (catalog : List CatalogItem) (g : Gender) (cats : List String) :
    List CatalogItem :=
  catalog.filter (fun it => decide (it.gender = g) && cats.any (fun c => it.categories.contains c))

/-- Inner-product similarity between two vectors. -/
def innerProduct (v w : List ℚ) : ℚ :=
  (List.zipWith (fun x y => x * y) v w).sum

/-- Attribute names at the positions of a vector with non-zero value. -/
def activeAttributeNames (names : List String) (v : List ℚ) : List String :=
  (names.zip v).filterMap (fun p => if p.2 = 0 then none else some p.1)

/-- Per-session server state: the seen-set and the exhaustion flag, keyed by
session id. -/
structure ServerState where
  seen : String → List String
  exhausted : String → Bool

/-- The fresh server state: no session has seen anything. -/
def initialServerState : ServerState :=
  { seen := fun _ => [], exhausted := fun _ => false }

/-- A recommendation response (spec section 6), instrumented with the flag
annInvoked recording whether the similarity search ran at all. -/
structure RecResult where
  itemId : Option String
  itemVector : Option (List ℚ)
  similarity : ℚ
  imagePaths : List String
  attributeNames : List String
  catalogExhausted : Bool
  seenCount : Nat
  filteredCount : Nat
  annInvoked : Bool
deriving Repr

/-- Modelled from the spec: walking the candidates ranked by descending
similarity with a stable tie-break and taking the first hit is the same as
taking the candidate of maximal similarity that comes first in catalog
insertion order; selectBest picks exactly that element (head-biased strict
maximum). -/
def selectBest : List (CatalogItem × ℚ) → Option (CatalogItem × ℚ)
  | [] => none
  | x :: xs =>
      match selectBest xs with
      | none => some x
      | some y => if y.2 > x.2 then some y else some x

/-- Modelled from the spec: Retriever.nextRecommendation.  Validates the
vector dimension, filters candidates, surfaces an empty candidate set as
immediate exhaustion without running the similarity search, otherwise picks
the best unseen candidate, marks it seen, and reports exhaustion when every
candidate has been seen. -/
def nextRecommendation (eng : Engine) (st : ServerState) (sid : String)
    (pref : List ℚ) (g : Gender) (cats : List String) :
    Except Err RecResult × ServerState :=
  if pref.length ≠ attributeSpaceSize then
    (Except.error Err.dimensionMismatch, st)
  else
    let candidates := candidateFilter eng.catalog g cats
    if candidates.isEmpty then
      (Except.ok
        { itemId := none, itemVector := none, similarity := 0, imagePaths := [],
          attributeNames := [], catalogExhausted := true,
          seenCount := (st.seen sid).length, filteredCount := 0, annInvoked := false }, st)
    else
      let scored := candidates.map (fun it => (it, innerProduct pref it.vector))
      let unseen := scored.filter (fun p => !((st.seen sid).contains p.1.itemId))
      match selectBest unseen with
      | none =>
          (Except.ok
            { itemId := none, itemVector := none, similarity := 0, imagePaths := [],
              attributeNames := [], catalogExhausted := true,
              seenCount := (st.seen sid).length, filteredCount := candidates.length,
              annInvoked := true },
           { seen := st.seen,
             exhausted := fun x => if x = sid then true else st.exhausted x })
      | some p =>
          (Except.ok
            { itemId := some p.1.itemId, itemVector := some p.1.vector, similarity := p.2,
              imagePaths := p.1.imagePaths,
              attributeNames := activeAttributeNames eng.attributeNames p.1.vector,
              catalogExhausted := false,
              seenCount := (st.seen sid).length + 1,
              filteredCount := candidates.length, annInvoked := true },
           { seen := fun x => if x = sid then p.1.itemId :: st.seen x else st.seen x,
             exhausted := st.exhausted })

/-- Modelled from the spec: ResetSeen clears the seen-set of the session and
returns it to the Active state. -/
def resetSeen (st : ServerState) (sid : String) : ServerState :=
  { seen := fun x => if x = sid then [] else st.seen x,
    exhausted := fun x => if x = sid then false else st.exhausted x }

/-- The item id delivered by a recommendation response, if any. -/
def returnedId (out : Except Err RecResult × ServerState) : Option String :=
  match out.1 with
  | Except.ok rr => rr.itemId
  | Except.error _ => none

/-- One recommendation request of a session. -/
structure SessionRequest where
  pref : List ℚ
  gender : Gender
  categories : List String

/-- The item ids delivered to one session by a sequence of
nextRecommendation calls with no intervening reset, threading the server
state through. -/
def runSession (eng : Engine) (sid : String) :
    ServerState → List SessionRequest → List String
  | _, [] => []
  | st, r :: rs =>
      match nextRecommendation eng st sid r.pref r.gender r.categories with
      | (Except.ok rr, st2) =>
          match rr.itemId with
          | some id => id :: runSession eng sid st2 rs
          | none => runSession eng sid st2 rs
      | (Except.error _, st2) => runSession eng sid st2 rs

/-- A style archetype: a canonical vector keyed by gender and a
clothing-category combination. -/
structure Archetype where
  gender : Gender
  categories : List String
  vector : List ℚ
deriving DecidableEq, Repr

/-- True when at least one archetype of this gender covers the category. -/
def knownForGender (table : List Archetype) (g : Gender) (c : String) : Bool :=
  table.any (fun a => decide (a.gender = g) && a.categories.contains c)

/-- Exact archetype lookup for a (gender, category combination) key. -/
def lookupExact (table : List Archetype) (g : Gender) (cats : List String) :
    Option Archetype :=
  table.find? (fun a => decide (a.gender = g) && decide (a.categories = cats))

/-- First archetype vector of this gender covering the category. -/
def firstCategoryVector (table : List Archetype) (g : Gender) (c : String) :
    Option (List ℚ) :=
  (table.find? (fun a => decide (a.gender = g) && a.categories.contains c)).map
    (fun a => a.vector)

/-- Pointwise sum of a list of n-dimensional vectors. -/
def sumVectors (n : Nat) (vs : List (List ℚ)) : List ℚ :=
  vs.foldl (fun acc v => List.zipWith (fun x y => x + y) acc v) (List.replicate n 0)

/-- Pointwise average of a list of n-dimensional vectors. -/
def avgVectors (n : Nat) (vs : List (List ℚ)) : List ℚ :=
  (sumVectors n vs).map (fun x => x / (vs.length : ℚ))

/-- The L1 norm of a vector. -/
def l1Norm (v : List ℚ) : ℚ :=
  (v.map (fun x => |x|)).sum

/-- Modelled from the spec: renormalizing after averaging; the spec does not
fix the norm, so the model scales by the L1 norm, which like any scaling
preserves the length of the vector. -/
def renormalize (v : List ℚ) : List ℚ :=
  if l1Norm v = 0 then v else v.map (fun x => x / l1Norm v)

/-- Modelled from the spec: the fixed multiplicative amplification weight,
some value greater than one. -/
def amplifyWeight : ℚ := 2

/-- Modelled from the spec: amplify the components whose attribute name is
the gender tag or one of the requested categories. -/
def amplify (names : List String) (g : Gender) (cats : List String) (v : List ℚ) :
    List ℚ :=
  v.mapIdx (fun i x =>
    if names.getD i "" = genderName g ∨ (names.getD i "") ∈ cats then amplifyWeight * x else x)

/-- Modelled from the spec: PreferenceVectorBuilder.  Rejects an unrecognized
gender, an empty category set, and a category set with no category known for
the gender; otherwise takes the exact archetype or the renormalized average
of the per-category archetypes and amplifies the gender and category
components.  The country is used only for response metadata. -/
def buildPreferenceVector (names : List String) (table : List Archetype)
    (gender country : String) (cats : List String) : Except Err (List ℚ) :=
  match parseGender gender with
  | none => Except.error Err.invalidInput
  | some g =>
      if cats.isEmpty then Except.error Err.invalidInput
      else
        let known := cats.filter (fun c => knownForGender table g c)
        if known.isEmpty then Except.error Err.invalidInput
        else
          let base :=
            match lookupExact table g cats with
            | some a => a.vector
            | none =>
                renormalize (avgVectors attributeSpaceSize
                  (known.filterMap (fun c => firstCategoryVector table g c)))
          Except.ok (amplify names g cats base)

/-- The recommendation payload as the client declares it
(TinderRecommendationScreen.tsx, interface RecommendationItem). -/
structure RecommendationItem where
  item_id : Option String
  item_vector : Option (List ℚ)
  similarity_score : ℚ
  image_paths : List String
  attributes : List String

/-- The placeholder URL used when the recommendation has no item id. -/
def noImagePlaceholder : String :=
  "https://via.placeholder.com/300x400/FF6B6B/FFFFFF?text=No+Image"

/-- The placeholder URL used for an item whose image candidates are all
exhausted; fixed for a given item id. -/
def itemPlaceholder (id : String) : String :=
  "https://via.placeholder.com/300x400/FF6B6B/FFFFFF?text=" ++ id

/-- Embeds getImageSource of TinderRecommendationScreen.tsx: pick the
image-path candidate at the recorded error count, or the placeholder once the
candidates are exhausted.  The error-count map defaults to zero, matching the
JavaScript defaulting. -/
def getImageSource (item : RecommendationItem) (imageErrors : String → Nat) : String :=
  match item.item_id with
  | none => noImagePlaceholder
  | some id =>
      let errorCount := imageErrors id
      if errorCount < item.image_paths.length then
        item.image_paths.getD errorCount ""
      else
        itemPlaceholder id

/-- Embeds handleImageError of TinderRecommendationScreen.tsx: a load error
for a non-null item id increments that id in the error-count map by one. -/
def handleImageError (itemId : Option String) (imageErrors : String → Nat) :
    String → Nat :=
  match itemId with
  | none => imageErrors
  | some id => fun x => if x = id then imageErrors x + 1 else imageErrors x

/-- The client screen state relevant to the feedback entry point
(TinderRecommendationScreen.tsx): the dislike count and the visibility of the
feedback tab. -/
structure ScreenState where
  dislikeCount : Nat
  showFeedbackTab : Bool
deriving DecidableEq, Repr

/-- The screen events that touch the feedback-tab state: card actions and
the completion of the two steering calls with their success flag. -/
inductive ScreenEvent
  | dislikeTap
  | likeTap
  | superlikeTap
  | imageUploadResponse (success : Bool)
  | styleDescribeResponse (success : Bool)
deriving DecidableEq, Repr

/-- True for the completion of a steering call with success = true. -/
def isSteeringSuccess : ScreenEvent → Bool
  | ScreenEvent.imageUploadResponse b => b
  | ScreenEvent.styleDescribeResponse b => b
  | _ => false

/-- Embeds the state updates of TinderRecommendationScreen.tsx: handleDislike
increments the dislike count and shows the feedback tab once the new count
reaches three; a successful upload or style response hides it; nothing else
touches it. -/
def screenStep (s : ScreenState) : ScreenEvent → ScreenState
  | ScreenEvent.dislikeTap =>
      let n := s.dislikeCount + 1
      { dislikeCount := n,
        showFeedbackTab := if 3 ≤ n then true else s.showFeedbackTab }
  | ScreenEvent.likeTap => s
  | ScreenEvent.superlikeTap => s
  | ScreenEvent.imageUploadResponse ok =>
      if ok then { s with showFeedbackTab := false } else s
  | ScreenEvent.styleDescribeResponse ok =>
      if ok then { s with showFeedbackTab := false } else s

/-- The initial screen state: no dislikes, feedback tab hidden. -/
def initialScreenState : ScreenState :=
  { dislikeCount := 0, showFeedbackTab := false }

/-- The screen state after a sequence of events from the initial state. -/
def runScreen (es : List ScreenEvent) : ScreenState :=
  es.foldl screenStep initialScreenState

/-- A backend HTTP response as the service code observes it: the HTTP ok
flag, the parsed success flag, and the vector field the method reads
(preference_vector or updated_preference_vector), none when absent. -/
structure BackendResponse where
  ok : Bool
  success : Bool
  vector : Option (List ℚ)
deriving DecidableEq, Repr

/-- Embeds constructPreferenceVector of FashionRecommendationService
(fashionRecommendation service source): a non-ok response throws before the
cache is touched; the cache is replaced only when success holds and the
vector field is present. -/
def constructPreferenceVector (cache : Option (List ℚ)) (resp : BackendResponse) :
    Except String BackendResponse × Option (List ℚ) :=
  if resp.ok = false then
    (Except.error "HTTP error", cache)
  else
    (Except.ok resp,
      if resp.success = true then
        match resp.vector with
        | some v => some v
        | none => cache
      else cache)

/-- Embeds updatePreferenceVector of FashionRecommendationService: same
response handling as constructPreferenceVector, reading
updated_preference_vector. -/
def updatePreferenceVector (cache : Option (List ℚ)) (resp : BackendResponse) :
    Except String BackendResponse × Option (List ℚ) :=
  if resp.ok = false then
    (Except.error "HTTP error", cache)
  else
    (Except.ok resp,
      if resp.success = true then
        match resp.vector with
        | some v => some v
        | none => cache
      else cache)

/-- Embeds uploadImage of FashionRecommendationService: same response
handling, reading updated_preference_vector. -/
def uploadImage (cache : Option (List ℚ)) (resp : BackendResponse) :
    Except String BackendResponse × Option (List ℚ) :=
  if resp.ok = false then
    (Except.error "HTTP error", cache)
  else
    (Except.ok resp,
      if resp.success = true then
        match resp.vector with
        | some v => some v
        | none => cache
      else cache)

/-- Embeds describeStyle of FashionRecommendationService: same response
handling, reading updated_preference_vector. -/
def describeStyle (cache : Option (List ℚ)) (resp : BackendResponse) :
    Except String BackendResponse × Option (List ℚ) :=
  if resp.ok = false then
    (Except.error "HTTP error", cache)
  else
    (Except.ok resp,
      if resp.success = true then
        match resp.vector with
        | some v => some v
        | none => cache
      else cache)

/-- Embeds getPreferenceVector of FashionRecommendationService: return the
in-memory cached vector. -/
def getPreferenceVector (cache : Option (List ℚ)) : Option (List ℚ) :=
  cache

/-- A concrete one-item catalog entry for closed evaluations. -/
def demoItem : CatalogItem :=
  { itemId := "item1", vector := List.replicate attributeSpaceSize 1,
    gender := Gender.men, categories := ["Jeans"], imagePaths := ["img1"] }

/-- A concrete engine holding the one-item catalog. -/
def demoEngine : Engine :=
  { attributeNames := [], catalog := [demoItem] }

/-- A concrete valid preference vector of full dimension. -/
def demoPref : List ℚ := List.replicate attributeSpaceSize 1

/-- A concrete archetype for closed evaluations. -/
def demoArchetype : Archetype :=
  { gender := Gender.men, categories := ["Jeans"],
    vector := List.replicate attributeSpaceSize 1 }

/-- A concrete archetype table for closed evaluations. -/
def demoTable : List Archetype := [demoArchetype]

/-- A concrete client recommendation payload for closed evaluations. -/
def demoRecItem : RecommendationItem :=
  { item_id := some "i1", item_vector := none, similarity_score := 0,
    image_paths := ["a", "b"], attributes := [] }

/-- A concrete error-count map with no errors recorded. -/
def demoErrors : String → Nat := fun _ => 0

/-- Pointwise reading of zipWith through getD, inside the common range. -/
theorem getD_zipWith (f : ℚ → ℚ → ℚ) (d : ℚ) :
    ∀ (xs ys : List ℚ) (k : Nat), k < xs.length → k < ys.length →
      (List.zipWith f xs ys).getD k d = f (xs.getD k d) (ys.getD k d) := by
  intro xs
  induction xs with
  | nil => intro ys k h _; simp at h
  | cons x xs ih =>
      intro ys k hx hy
      cases ys with
      | nil => simp at hy
      | cons y ys =>
          cases k with
          | zero => simp [List.getD]
          | succ k =>
              simp only [List.zipWith_cons_cons]
              have hx2 : k < xs.length := Nat.lt_of_succ_lt_succ hx
              have hy2 : k < ys.length := Nat.lt_of_succ_lt_succ hy
              simpa [List.getD] using ih ys k hx2 hy2

/-- C1: ApplyAction (OnlineLearner) is a pure deterministic function of the
preference vector, the item vector and the action; with learning rate 1/10
the like action mixes toward the item, dislike negates the pull term, and
superlike uses the effective coefficient (1/10)(5/2) = 1/4, with no
renormalization; on v = [0,0] and item = [1,1] the results are [0.1, 0.1],
[-0.1, -0.1] and [0.25, 0.25]. -/
theorem c1_applyAction_update_rule (pref item : List ℚ)
    (h : pref.length = item.length) :
    (∃ v, applyAction pref item FeedbackAction.like = Except.ok v ∧
      v.length = pref.length ∧
      ∀ k, k < pref.length →
        v.getD k 0 = (1 - 1/10) * pref.getD k 0 + (1/10) * item.getD k 0) ∧
    (∃ v, applyAction pref item FeedbackAction.dislike = Except.ok v ∧
      v.length = pref.length ∧
      ∀ k, k < pref.length →
        v.getD k 0 = (1 - 1/10) * pref.getD k 0 - (1/10) * item.getD k 0) ∧
    (∃ v, applyAction pref item FeedbackAction.superlike = Except.ok v ∧
      v.length = pref.length ∧
      ∀ k, k < pref.length →
        v.getD k 0 = (1 - 1/4) * pref.getD k 0 + (1/4) * item.getD k 0) ∧
    learningRate * superlikeWeight = 1/4 ∧
    applyAction [0, 0] [1, 1] FeedbackAction.like = Except.ok [1/10, 1/10] ∧
    applyAction [0, 0] [1, 1] FeedbackAction.dislike = Except.ok [-(1/10), -(1/10)] ∧
    applyAction [0, 0] [1, 1] FeedbackAction.superlike = Except.ok [1/4, 1/4] := by
  have hif : ¬ pref.length ≠ item.length := by simp [h]
  refine ⟨?_, ?_, ?_, by norm_num [learningRate, superlikeWeight], ?_, ?_, ?_⟩
  · refine ⟨List.zipWith (fun p i => (1 - learningRate) * p + learningRate * i) pref item,
      by simp [applyAction, hif], ?_, ?_⟩
    · simp [List.length_zipWith, h]
    · intro k hk
      rw [getD_zipWith _ _ _ _ _ hk (h ▸ hk)]
      norm_num [learningRate]
  · refine ⟨List.zipWith (fun p i => (1 - learningRate) * p - learningRate * i) pref item,
      by simp [applyAction, hif], ?_, ?_⟩
    · simp [List.length_zipWith, h]
    · intro k hk
      rw [getD_zipWith _ _ _ _ _ hk (h ▸ hk)]
      norm_num [learningRate]
  · refine ⟨List.zipWith
        (fun p i => (1 - learningRate * superlikeWeight) * p + (learningRate * superlikeWeight) * i)
        pref item,
      by simp [applyAction, hif], ?_, ?_⟩
    · simp [List.length_zipWith, h]
    · intro k hk
      rw [getD_zipWith _ _ _ _ _ hk (h ▸ hk)]
      norm_num [learningRate, superlikeWeight]
  · simp only [applyAction, List.length_cons, List.length_nil, ne_eq, if_neg]
    norm_num [learningRate]
  · simp only [applyAction, List.length_cons, List.length_nil, ne_eq, if_neg]
    norm_num [learningRate]
  · simp only [applyAction, List.length_cons, List.length_nil, ne_eq, if_neg]
    norm_num [learningRate, superlikeWeight]

/-- Witness for C1 at the concrete inputs of the claim. -/
theorem c1_applyAction_update_rule_witness :
    ([(0:ℚ), 0].length = [(1:ℚ), 1].length) ∧
    applyAction [0, 0] [1, 1] FeedbackAction.superlike = Except.ok [1/4, 1/4] :=
  ⟨rfl, (c1_applyAction_update_rule [0, 0] [1, 1] rfl).2.2.2.2.2.2⟩

/-- selectBest returns none exactly on the empty candidate list. -/
theorem selectBest_eq_none (l : List (CatalogItem × ℚ)) :
    selectBest l = none ↔ l = [] := by
  cases l with
  | nil => simp [selectBest]
  | cons x xs =>
      simp only [selectBest]
      cases selectBest xs with
      | none => simp
      | some y => by_cases h : y.2 > x.2 <;> simp [h]

/-- selectBest returns an element of the list. -/
theorem selectBest_mem : ∀ (l : List (CatalogItem × ℚ)) (x : CatalogItem × ℚ),
    selectBest l = some x → x ∈ l := by
  intro l
  induction l with
  | nil => intro x h; simp [selectBest] at h
  | cons a l ih =>
      intro x h
      cases hsl : selectBest l with
      | none =>
          simp only [selectBest, hsl] at h
          injection h with h2
          subst h2
          exact List.mem_cons_self _ _
      | some y =>
          simp only [selectBest, hsl] at h
          split_ifs at h with hgt
          · injection h with h2
            subst h2
            exact List.mem_cons_of_mem a (ih _ hsl)
          · injection h with h2
            subst h2
            exact List.mem_cons_self _ _

/-- selectBest picks the first element attaining the maximal similarity:
its value dominates every element, and every element strictly before it in
the list has strictly smaller similarity. -/
theorem selectBest_spec : ∀ (l : List (CatalogItem × ℚ)) (x : CatalogItem × ℚ),
    selectBest l = some x →
    ∃ i : Fin l.length, l.get i = x ∧
      (∀ j : Fin l.length, (l.get j).2 ≤ x.2) ∧
      (∀ j : Fin l.length, (j : Nat) < (i : Nat) → (l.get j).2 < x.2) := by
  intro l
  induction l with
  | nil => intro x h; simp [selectBest] at h
  | cons a l ih =>
      intro x h
      cases hsl : selectBest l with
      | none =>
          simp only [selectBest, hsl] at h
          injection h with h2
          subst h2
          have hl : l = [] := (selectBest_eq_none l).mp hsl
          subst hl
          refine ⟨⟨0, by simp⟩, rfl, ?_, ?_⟩
          · intro j
            have hj0 : (j : Nat) = 0 := Nat.lt_one_iff.mp (by simpa using j.isLt)
            have hje : j = ⟨0, by simp⟩ := Fin.ext hj0
            rw [hje]
            exact le_refl _
          · intro j hj
            exact absurd hj (Nat.not_lt_zero _)
      | some y =>
          simp only [selectBest, hsl] at h
          split_ifs at h with hgt
          · injection h with h2
            subst h2
            obtain ⟨i, hget, hmax, hfirst⟩ := ih _ hsl
            refine ⟨⟨(i : Nat) + 1, Nat.succ_lt_succ i.isLt⟩, ?_, ?_, ?_⟩
            · show l.get ⟨(i : Nat), i.isLt⟩ = y
              simpa using hget
            · intro j
              rcases j with ⟨j, hj⟩
              cases j with
              | zero => exact le_of_lt hgt
              | succ j =>
                  show (l.get ⟨j, Nat.lt_of_succ_lt_succ hj⟩).2 ≤ y.2
                  exact hmax ⟨j, Nat.lt_of_succ_lt_succ hj⟩
            · intro j hj
              rcases j with ⟨j, hjlt⟩
              cases j with
              | zero => exact hgt
              | succ j =>
                  show (l.get ⟨j, Nat.lt_of_succ_lt_succ hjlt⟩).2 < y.2
                  exact hfirst ⟨j, Nat.lt_of_succ_lt_succ hjlt⟩ (Nat.lt_of_succ_lt_succ hj)
          · injection h with h2
            subst h2
            obtain ⟨i, hget, hmax, _⟩ := ih _ hsl
            refine ⟨⟨0, by simp⟩, rfl, ?_, ?_⟩
            · intro j
              rcases j with ⟨j, hj⟩
              cases j with
              | zero => exact le_refl _
              | succ j =>
                  show (l.get ⟨j, Nat.lt_of_succ_lt_succ hj⟩).2 ≤ a.2
                  exact le_trans (hmax ⟨j, Nat.lt_of_succ_lt_succ hj⟩) (le_of_not_lt hgt)
            · intro j hj
              exact absurd hj (Nat.not_lt_zero _)

/-- When a call returns an item id, that id was not in the seen-set of the
session before the call and heads it afterwards. -/
theorem nextRecommendation_returns_fresh (eng : Engine) (st : ServerState)
    (sid : String) (pref : List ℚ) (g : Gender) (cats : List String) (id : String)
    (h : returnedId (nextRecommendation eng st sid pref g cats) = some id) :
    id ∉ st.seen sid ∧
      (nextRecommendation eng st sid pref g cats).2.seen sid = id :: st.seen sid := by
  simp only [nextRecommendation, returnedId] at h ⊢
  by_cases hlen : pref.length ≠ attributeSpaceSize
  · rw [if_pos hlen] at h
    simp at h
  · rw [if_neg hlen] at h ⊢
    by_cases hemp : (candidateFilter eng.catalog g cats).isEmpty = true
    · rw [if_pos hemp] at h
      simp at h
    · rw [if_neg hemp] at h ⊢
      generalize hsel : selectBest
          (((candidateFilter eng.catalog g cats).map
            (fun it => (it, innerProduct pref it.vector))).filter
            (fun p => !((st.seen sid).contains p.1.itemId))) = sb at h ⊢
      cases sb with
      | none => simp at h
      | some p =>
          have hid2 : p.1.itemId = id := by simpa using h
          have hmem := selectBest_mem _ _ hsel
          rw [List.mem_filter] at hmem
          have hfresh : p.1.itemId ∉ st.seen sid := by simpa using hmem.2
          subst hid2
          exact ⟨hfresh, by simp⟩

/-- When a call returns no item id, the seen-set of the session is
unchanged. -/
theorem nextRecommendation_none_seen (eng : Engine) (st : ServerState)
    (sid : String) (pref : List ℚ) (g : Gender) (cats : List String)
    (h : returnedId (nextRecommendation eng st sid pref g cats) = none) :
    (nextRecommendation eng st sid pref g cats).2.seen sid = st.seen sid := by
  simp only [nextRecommendation, returnedId] at h ⊢
  by_cases hlen : pref.length ≠ attributeSpaceSize
  · rw [if_pos hlen]
  · rw [if_neg hlen] at h ⊢
    by_cases hemp : (candidateFilter eng.catalog g cats).isEmpty = true
    · rw [if_pos hemp]
    · rw [if_neg hemp] at h ⊢
      generalize hsel : selectBest
          (((candidateFilter eng.catalog g cats).map
            (fun it => (it, innerProduct pref it.vector))).filter
            (fun p => !((st.seen sid).contains p.1.itemId))) = sb at h ⊢
      cases sb with
      | none => rfl
      | some p => simp at h

/-- C2: for every session id and every sequence of nextRecommendation calls
with no intervening reset, the returned item ids are pairwise distinct, and
none of them was in the seen-set the run started from: an item id, once in
the seen-set of a session, is never returned again to that session. -/
theorem c2_never_repeat (eng : Engine) (sid : String) (st : ServerState)
    (reqs : List SessionRequest) :
    (runSession eng sid st reqs).Nodup ∧
    ∀ id ∈ runSession eng sid st reqs, id ∉ st.seen sid := by
  induction reqs generalizing st with
  | nil => simp [runSession]
  | cons r rs ih =>
      cases hout : nextRecommendation eng st sid r.pref r.gender r.categories with
      | mk res st2 =>
          cases res with
          | error e =>
              have hseen : st2.seen sid = st.seen sid := by
                have := nextRecommendation_none_seen eng st sid r.pref r.gender r.categories
                  (by simp [returnedId, hout])
                rwa [hout] at this
              have hrun : runSession eng sid st (r :: rs) = runSession eng sid st2 rs := by
                simp [runSession, hout]
              rw [hrun]
              exact ⟨(ih st2).1, fun id hmem => hseen ▸ (ih st2).2 id hmem⟩
          | ok rr =>
              cases hid : rr.itemId with
              | none =>
                  have hseen : st2.seen sid = st.seen sid := by
                    have := nextRecommendation_none_seen eng st sid r.pref r.gender r.categories
                      (by simp [returnedId, hout, hid])
                    rwa [hout] at this
                  have hrun : runSession eng sid st (r :: rs) = runSession eng sid st2 rs := by
                    simp [runSession, hout, hid]
                  rw [hrun]
                  exact ⟨(ih st2).1, fun id hmem => hseen ▸ (ih st2).2 id hmem⟩
              | some id =>
                  have hfresh := nextRecommendation_returns_fresh eng st sid
                    r.pref r.gender r.categories id (by simp [returnedId, hout, hid])
                  rw [hout] at hfresh
                  have hrun : runSession eng sid st (r :: rs) = id :: runSession eng sid st2 rs := by
                    simp [runSession, hout, hid]
                  rw [hrun]
                  obtain ⟨hnodup, hold⟩ := ih st2
                  constructor
                  · refine List.nodup_cons.mpr ⟨?_, hnodup⟩
                    intro hmem
                    have := hold id hmem
                    rw [hfresh.2] at this
                    exact this (List.mem_cons_self _ _)
                  · intro id2 hmem
                    rcases List.mem_cons.mp hmem with hq | hq
                    · subst hq; exact hfresh.1
                    · have := hold id2 hq
                      rw [hfresh.2] at this
                      exact fun hc => this (List.mem_cons_of_mem _ hc)

/-- Witness for C2: a one-request run on the demo catalog delivers item1
once, and item1 was not seen before the run. -/
theorem c2_never_repeat_witness :
    (runSession demoEngine "s" initialServerState
      [{ pref := demoPref, gender := Gender.men, categories := ["Jeans"] }]).Nodup ∧
    "item1" ∉ initialServerState.seen "s" :=
  ⟨(c2_never_repeat demoEngine "s" initialServerState
      [{ pref := demoPref, gender := Gender.men, categories := ["Jeans"] }]).1,
   (c2_never_repeat demoEngine "s" initialServerState
      [{ pref := demoPref, gender := Gender.men, categories := ["Jeans"] }]).2 "item1"
      (by simp [runSession, nextRecommendation, returnedId, demoEngine, demoItem,
        demoPref, candidateFilter, selectBest, initialServerState])⟩

/-- C3: when the candidate filter is empty, nextRecommendation immediately
returns catalog exhaustion with no item id, the similarity search is not
invoked, and the server state is unchanged: the empty candidate set is
surfaced as exhaustion, not as an error. -/
theorem c3_empty_candidates (eng : Engine) (st : ServerState) (sid : String)
    (pref : List ℚ) (g : Gender) (cats : List String)
    (hlen : pref.length = attributeSpaceSize)
    (hempty : candidateFilter eng.catalog g cats = []) :
    nextRecommendation eng st sid pref g cats =
      (Except.ok
        { itemId := none, itemVector := none, similarity := 0, imagePaths := [],
          attributeNames := [], catalogExhausted := true,
          seenCount := (st.seen sid).length, filteredCount := 0,
          annInvoked := false }, st) := by
  have hif : ¬ pref.length ≠ attributeSpaceSize := by simp [hlen]
  simp [nextRecommendation, hif, hempty]

/-- Witness for C3: a women request against the men-only demo catalog has an
empty candidate set and is answered with exhaustion, untouched state and no
similarity search. -/
theorem c3_empty_candidates_witness :
    nextRecommendation demoEngine initialServerState "w" demoPref Gender.women ["Jeans"] =
      (Except.ok
        { itemId := none, itemVector := none, similarity := 0, imagePaths := [],
          attributeNames := [], catalogExhausted := true,
          seenCount := 0, filteredCount := 0,
          annInvoked := false }, initialServerState) :=
  c3_empty_candidates demoEngine initialServerState "w" demoPref Gender.women ["Jeans"]
    (by simp [demoPref]) (by simp [candidateFilter, demoEngine, demoItem])

/-- C4: a preference vector whose length differs from the attribute-space
size is rejected with DimensionMismatch before any state mutation: the
server state after the call is exactly the state before it, so no seen-set
entry and no session record is created. -/
theorem c4_dimension_mismatch (eng : Engine) (st : ServerState) (sid : String)
    (pref : List ℚ) (g : Gender) (cats : List String)
    (h : pref.length ≠ attributeSpaceSize) :
    nextRecommendation eng st sid pref g cats =
      (Except.error Err.dimensionMismatch, st) := by
  simp [nextRecommendation, h]

/-- Witness for C4 at the empty preference vector. -/
theorem c4_dimension_mismatch_witness :
    nextRecommendation demoEngine initialServerState "s" [] Gender.men ["Jeans"] =
      (Except.error Err.dimensionMismatch, initialServerState) :=
  c4_dimension_mismatch demoEngine initialServerState "s" [] Gender.men ["Jeans"]
    (by decide)

/-- knownForGender agrees with membership of a covering archetype. -/
theorem knownForGender_eq_true_iff (table : List Archetype) (g : Gender) (c : String) :
    knownForGender table g c = true ↔ ∃ a ∈ table, a.gender = g ∧ c ∈ a.categories := by
  simp [knownForGender, List.any_eq_true]

/-- Summing vectors of a common length n yields a vector of length n. -/
theorem length_sumVectors (n : Nat) : ∀ (vs : List (List ℚ)) (acc : List ℚ),
    (∀ v ∈ vs, v.length = n) → acc.length = n →
    (vs.foldl (fun a v => List.zipWith (fun x y => x + y) a v) acc).length = n := by
  intro vs
  induction vs with
  | nil => intro acc _ hacc; simpa using hacc
  | cons v vs ih =>
      intro acc h hacc
      simp only [List.foldl_cons]
      refine ih _ (fun w hw => h w (List.mem_cons_of_mem _ hw)) ?_
      simp [List.length_zipWith, hacc, h v (List.mem_cons_self _ _)]

/-- Averaging vectors of a common length n yields a vector of length n. -/
theorem length_avgVectors (n : Nat) (vs : List (List ℚ))
    (h : ∀ v ∈ vs, v.length = n) : (avgVectors n vs).length = n := by
  simp only [avgVectors, sumVectors, List.length_map]
  exact length_sumVectors n vs _ h (List.length_replicate n 0)

/-- Renormalization preserves the length of the vector. -/
theorem length_renormalize (v : List ℚ) : (renormalize v).length = v.length := by
  unfold renormalize
  split <;> simp

/-- Amplification preserves the length of the vector. -/
theorem length_amplify (names : List String) (g : Gender) (cats : List String)
    (v : List ℚ) : (amplify names g cats v).length = v.length := by
  simp [amplify, List.length_mapIdx]

/-- C5: for every valid input (recognized gender, non-empty category set with
at least one category known for that gender, archetype table of
463-dimensional vectors), BuildPreferenceVector returns a vector of length
exactly 463; it fails with InvalidInput when the gender is unrecognized, the
category set is empty, or no requested category is known for the gender. -/
theorem c5_buildPreferenceVector_length (names : List String) (table : List Archetype)
    (gender country : String) (cats : List String) (g : Gender)
    (hg : parseGender gender = some g)
    (hcats : cats ≠ [])
    (hknown : ∃ c ∈ cats, ∃ a ∈ table, a.gender = g ∧ c ∈ a.categories)
    (htable : ∀ a ∈ table, a.vector.length = attributeSpaceSize) :
    (∃ v, buildPreferenceVector names table gender country cats = Except.ok v ∧
        v.length = attributeSpaceSize) ∧
    (∀ s cs, parseGender s = none →
        buildPreferenceVector names table s country cs = Except.error Err.invalidInput) ∧
    (∀ s, buildPreferenceVector names table s country [] = Except.error Err.invalidInput) ∧
    (∀ cs, (∀ c ∈ cs, ¬ ∃ a ∈ table, a.gender = g ∧ c ∈ a.categories) →
        buildPreferenceVector names table gender country cs = Except.error Err.invalidInput) := by
  refine ⟨?_, ?_, ?_, ?_⟩
  · obtain ⟨c, hc, ha⟩ := hknown
    have hkn : knownForGender table g c = true :=
      (knownForGender_eq_true_iff table g c).mpr ha
    have hmem : c ∈ cats.filter (fun c => knownForGender table g c) :=
      List.mem_filter.mpr ⟨hc, hkn⟩
    have hne : cats.filter (fun c => knownForGender table g c) ≠ [] :=
      List.ne_nil_of_mem hmem
    simp only [buildPreferenceVector, hg]
    rw [if_neg (by simp [List.isEmpty_iff, hcats])]
    rw [if_neg (by simp [List.isEmpty_iff, hne])]
    refine ⟨_, rfl, ?_⟩
    rw [length_amplify]
    cases hlk : lookupExact table g cats with
    | some a =>
        simp only [hlk]
        have hmemA : a ∈ table := by
          unfold lookupExact at hlk
          exact List.mem_of_find?_eq_some hlk
        exact htable a hmemA
    | none =>
        simp only [hlk]
        rw [length_renormalize]
        refine length_avgVectors attributeSpaceSize _ ?_
        intro v hv
        rw [List.mem_filterMap] at hv
        obtain ⟨c2, _, hfc⟩ := hv
        unfold firstCategoryVector at hfc
        cases hfind : List.find? (fun a => decide (a.gender = g) && a.categories.contains c2) table with
        | none => rw [hfind] at hfc; simp at hfc
        | some a2 =>
            rw [hfind] at hfc
            simp at hfc
            have hmemA : a2 ∈ table := List.mem_of_find?_eq_some hfind
            rw [← hfc]
            exact htable a2 hmemA
  · intro s cs hs
    simp [buildPreferenceVector, hs]
  · intro s
    cases hps : parseGender s with
    | none => simp [buildPreferenceVector, hps]
    | some g2 => simp [buildPreferenceVector, hps]
  · intro cs hnone
    simp only [buildPreferenceVector, hg]
    by_cases hemp : cs.isEmpty = true
    · rw [if_pos hemp]
    · rw [if_neg hemp]
      have hfe : cs.filter (fun c => knownForGender table g c) = [] := by
        rw [List.filter_eq_nil]
        intro c hc
        simp only [Bool.not_eq_true]
        rw [← Bool.not_eq_true]
        intro hk
        exact hnone c hc ((knownForGender_eq_true_iff table g c).mp hk)
      rw [if_pos (by simp [hfe])]

/-- Witness for C5 on the one-archetype demo table. -/
theorem c5_buildPreferenceVector_length_witness :
    (∃ v, buildPreferenceVector [] demoTable "MEN" "US" ["Jeans"] = Except.ok v ∧
        v.length = attributeSpaceSize) ∧
    (∀ s cs, parseGender s = none →
        buildPreferenceVector [] demoTable s "US" cs = Except.error Err.invalidInput) ∧
    (∀ s, buildPreferenceVector [] demoTable s "US" [] = Except.error Err.invalidInput) ∧
    (∀ cs, (∀ c ∈ cs, ¬ ∃ a ∈ demoTable, a.gender = Gender.men ∧ c ∈ a.categories) →
        buildPreferenceVector [] demoTable "MEN" "US" cs = Except.error Err.invalidInput) :=
  c5_buildPreferenceVector_length [] demoTable "MEN" "US" ["Jeans"] Gender.men
    rfl (by simp)
    (by
      refine ⟨"Jeans", by simp, demoArchetype, by simp [demoTable], ?_, ?_⟩ <;>
        simp [demoArchetype])
    (by
      intro a hmem
      simp only [demoTable, List.mem_singleton] at hmem
      subst hmem
      simp [demoArchetype, List.length_replicate])

/-- C6: nextRecommendation is a pure function, so identical inputs (same
session seen-state, preference vector, gender and categories) give identical
responses, item id and similarity score included; and the selection applied
to the scored candidate list picks the first element of maximal similarity,
so equal similarity scores are broken by catalog insertion order. -/
theorem c6_deterministic_tiebreak (eng : Engine) (st : ServerState) (sid : String)
    (pref : List ℚ) (g : Gender) (cats : List String)
    (l : List (CatalogItem × ℚ)) (x : CatalogItem × ℚ)
    (h : selectBest l = some x) :
    nextRecommendation eng st sid pref g cats =
      nextRecommendation eng st sid pref g cats ∧
    ∃ i : Fin l.length, l.get i = x ∧
      (∀ j : Fin l.length, (l.get j).2 ≤ x.2) ∧
      (∀ j : Fin l.length, (j : Nat) < (i : Nat) → (l.get j).2 < x.2) :=
  ⟨rfl, selectBest_spec l x h⟩

/-- Witness for C6 on a two-element tie: selectBest picks the first of two
candidates with equal similarity. -/
theorem c6_deterministic_tiebreak_witness :
    nextRecommendation demoEngine initialServerState "s" demoPref Gender.men ["Jeans"] =
      nextRecommendation demoEngine initialServerState "s" demoPref Gender.men ["Jeans"] ∧
    ∃ i : Fin ([(demoItem, (1:ℚ)), (demoItem, 1)].length),
      [(demoItem, (1:ℚ)), (demoItem, 1)].get i = (demoItem, 1) ∧
      (∀ j : Fin ([(demoItem, (1:ℚ)), (demoItem, 1)].length),
        ([(demoItem, (1:ℚ)), (demoItem, 1)].get j).2 ≤ (demoItem, (1:ℚ)).2) ∧
      (∀ j : Fin ([(demoItem, (1:ℚ)), (demoItem, 1)].length),
        (j : Nat) < (i : Nat) → ([(demoItem, (1:ℚ)), (demoItem, 1)].get j).2 < (demoItem, (1:ℚ)).2) :=
  c6_deterministic_tiebreak demoEngine initialServerState "s" demoPref Gender.men ["Jeans"]
    [(demoItem, 1), (demoItem, 1)] (demoItem, 1) (by simp [selectBest])

set_option maxRecDepth 10000

/-- C7: resetSeen clears the seen-set of the session and returns it to the
Active state; concretely, on the one-item demo catalog the first call
returns item1 and marks it seen, a second call reports no item, and after a
reset the same previously seen item1 is returned again. -/
theorem c7_resetSeen_allows_repeat :
    (∀ st sid, (resetSeen st sid).seen sid = [] ∧ (resetSeen st sid).exhausted sid = false) ∧
    returnedId (nextRecommendation demoEngine initialServerState "s" demoPref
      Gender.men ["Jeans"]) = some "item1" ∧
    (nextRecommendation demoEngine initialServerState "s" demoPref
      Gender.men ["Jeans"]).2.seen "s" = ["item1"] ∧
    returnedId (nextRecommendation demoEngine
      (nextRecommendation demoEngine initialServerState "s" demoPref Gender.men ["Jeans"]).2
      "s" demoPref Gender.men ["Jeans"]) = none ∧
    returnedId (nextRecommendation demoEngine
      (resetSeen (nextRecommendation demoEngine initialServerState "s" demoPref
        Gender.men ["Jeans"]).2 "s")
      "s" demoPref Gender.men ["Jeans"]) = some "item1" := by
  refine ⟨fun st sid => ⟨by simp [resetSeen], by simp [resetSeen]⟩, ?_, ?_, ?_, ?_⟩ <;>
    simp [nextRecommendation, returnedId, demoEngine, demoItem, demoPref,
      candidateFilter, selectBest, initialServerState, resetSeen]

/-- C8: the client falls back across the image-path candidates in recorded
error order: with k load errors recorded for the item id of a displayed
recommendation, getImageSource requests image_paths at position k while
k is below the number of candidates and the fixed per-item placeholder once
k reaches it; each load error increments exactly that item id in the
error-count map by one. -/
theorem c8_image_fallback (item : RecommendationItem) (imageErrors : String → Nat)
    (id : String) (hid : item.item_id = some id) :
    (imageErrors id < item.image_paths.length →
      getImageSource item imageErrors = item.image_paths.getD (imageErrors id) "") ∧
    (item.image_paths.length ≤ imageErrors id →
      getImageSource item imageErrors = itemPlaceholder id) ∧
    handleImageError item.item_id imageErrors id = imageErrors id + 1 ∧
    (∀ x, x ≠ id → handleImageError item.item_id imageErrors x = imageErrors x) := by
  refine ⟨?_, ?_, ?_, ?_⟩
  · intro hlt
    simp [getImageSource, hid, hlt]
  · intro hle
    simp [getImageSource, hid, Nat.not_lt.mpr hle]
  · simp [handleImageError, hid]
  · intro x hx
    simp [handleImageError, hid, hx]

/-- Witness for C8 on a two-candidate item with no recorded errors. -/
theorem c8_image_fallback_witness :
    (demoErrors "i1" < demoRecItem.image_paths.length →
      getImageSource demoRecItem demoErrors = demoRecItem.image_paths.getD (demoErrors "i1") "") ∧
    (demoRecItem.image_paths.length ≤ demoErrors "i1" →
      getImageSource demoRecItem demoErrors = itemPlaceholder "i1") ∧
    handleImageError demoRecItem.item_id demoErrors "i1" = demoErrors "i1" + 1 ∧
    (∀ x, x ≠ "i1" → handleImageError demoRecItem.item_id demoErrors x = demoErrors x) :=
  c8_image_fallback demoRecItem demoErrors "i1" rfl

/-- The reachable invariant of the feedback tab: whenever it is shown, the
dislike count has reached three. -/
theorem screenStep_inv (s : ScreenState) (e : ScreenEvent)
    (h : s.showFeedbackTab = true → 3 ≤ s.dislikeCount) :
    (screenStep s e).showFeedbackTab = true → 3 ≤ (screenStep s e).dislikeCount := by
  cases e with
  | dislikeTap =>
      intro hshow
      simp only [screenStep] at hshow ⊢
      by_cases h3 : 3 ≤ s.dislikeCount + 1
      · exact h3
      · rw [if_neg h3] at hshow
        exact le_trans (h hshow) (Nat.le_succ _)
  | likeTap => exact h
  | superlikeTap => exact h
  | imageUploadResponse b =>
      cases b with
      | true => intro hshow; simp [screenStep] at hshow
      | false => simpa [screenStep] using h
  | styleDescribeResponse b =>
      cases b with
      | true => intro hshow; simp [screenStep] at hshow
      | false => simpa [screenStep] using h

/-- The feedback-tab invariant propagates along any event sequence. -/
theorem foldl_screenStep_inv : ∀ (es : List ScreenEvent) (s : ScreenState),
    (s.showFeedbackTab = true → 3 ≤ s.dislikeCount) →
    ((es.foldl screenStep s).showFeedbackTab = true →
      3 ≤ (es.foldl screenStep s).dislikeCount) := by
  intro es
  induction es with
  | nil => intro s h; simpa using h
  | cons e es ih =>
      intro s h
      simp only [List.foldl_cons]
      exact ih _ (screenStep_inv s e h)

/-- C9: the feedback entry point is rendered only once the dislike count has
reached three: in every state reachable from the initial screen state, a
shown feedback tab implies at least three dislikes; the tab is shown by a
dislike that brings the count to three or more, it stays shown across every
event that is not a successful steering response, and it is hidden exactly
by a successful image-upload or style-description response. -/
theorem c9_feedback_tab_gating :
    (∀ es : List ScreenEvent, (runScreen es).showFeedbackTab = true →
      3 ≤ (runScreen es).dislikeCount) ∧
    (∀ (s : ScreenState) (e : ScreenEvent), s.showFeedbackTab = true →
      isSteeringSuccess e = false → (screenStep s e).showFeedbackTab = true) ∧
    (∀ s : ScreenState,
      (screenStep s (ScreenEvent.imageUploadResponse true)).showFeedbackTab = false ∧
      (screenStep s (ScreenEvent.styleDescribeResponse true)).showFeedbackTab = false) ∧
    (∀ s : ScreenState, 2 ≤ s.dislikeCount →
      (screenStep s ScreenEvent.dislikeTap).showFeedbackTab = true) := by
  refine ⟨?_, ?_, ?_, ?_⟩
  · intro es
    exact foldl_screenStep_inv es initialScreenState (by simp [initialScreenState])
  · intro s e hshow hns
    cases e with
    | dislikeTap =>
        simp only [screenStep]
        by_cases h3 : 3 ≤ s.dislikeCount + 1
        · rw [if_pos h3]
        · rw [if_neg h3]; exact hshow
    | likeTap => exact hshow
    | superlikeTap => exact hshow
    | imageUploadResponse b =>
        cases b with
        | true => simp [isSteeringSuccess] at hns
        | false => simpa [screenStep] using hshow
    | styleDescribeResponse b =>
        cases b with
        | true => simp [isSteeringSuccess] at hns
        | false => simpa [screenStep] using hshow
  · intro s
    exact ⟨by simp [screenStep], by simp [screenStep]⟩
  · intro s h2
    simp only [screenStep]
    rw [if_pos (by omega)]

/-- Witness for C9: three dislikes reach the gate; the shown tab survives a
like and is hidden by a successful upload. -/
theorem c9_feedback_tab_gating_witness :
    3 ≤ (runScreen [ScreenEvent.dislikeTap, ScreenEvent.dislikeTap,
      ScreenEvent.dislikeTap]).dislikeCount ∧
    (screenStep { dislikeCount := 5, showFeedbackTab := true }
      ScreenEvent.likeTap).showFeedbackTab = true ∧
    (screenStep { dislikeCount := 5, showFeedbackTab := true }
      (ScreenEvent.imageUploadResponse true)).showFeedbackTab = false ∧
    (screenStep { dislikeCount := 2, showFeedbackTab := false }
      ScreenEvent.dislikeTap).showFeedbackTab = true :=
  ⟨c9_feedback_tab_gating.1 [ScreenEvent.dislikeTap, ScreenEvent.dislikeTap,
      ScreenEvent.dislikeTap] rfl,
   c9_feedback_tab_gating.2.1 { dislikeCount := 5, showFeedbackTab := true }
      ScreenEvent.likeTap rfl rfl,
   (c9_feedback_tab_gating.2.2.1 { dislikeCount := 5, showFeedbackTab := true }).1,
   c9_feedback_tab_gating.2.2.2 { dislikeCount := 2, showFeedbackTab := false }
      (by decide)⟩

/-- C10: the cached preference vector is replaced only by a parsed response
with success set and a vector present; when the HTTP response is not ok,
every service method throws and the cache keeps its previous value, so
getPreferenceVector returns the same vector as before the failed call. -/
theorem c10_cache_retained_on_failure (cache : Option (List ℚ)) (resp : BackendResponse) :
    (resp.ok = false →
      constructPreferenceVector cache resp = (Except.error "HTTP error", cache) ∧
      updatePreferenceVector cache resp = (Except.error "HTTP error", cache) ∧
      uploadImage cache resp = (Except.error "HTTP error", cache) ∧
      describeStyle cache resp = (Except.error "HTTP error", cache) ∧
      getPreferenceVector (constructPreferenceVector cache resp).2 = getPreferenceVector cache ∧
      getPreferenceVector (updatePreferenceVector cache resp).2 = getPreferenceVector cache ∧
      getPreferenceVector (uploadImage cache resp).2 = getPreferenceVector cache ∧
      getPreferenceVector (describeStyle cache resp).2 = getPreferenceVector cache) ∧
    ((constructPreferenceVector cache resp).2 ≠ cache →
      resp.success = true ∧ ∃ v, resp.vector = some v ∧
        (constructPreferenceVector cache resp).2 = some v) ∧
    ((updatePreferenceVector cache resp).2 ≠ cache →
      resp.success = true ∧ ∃ v, resp.vector = some v ∧
        (updatePreferenceVector cache resp).2 = some v) ∧
    ((uploadImage cache resp).2 ≠ cache →
      resp.success = true ∧ ∃ v, resp.vector = some v ∧
        (uploadImage cache resp).2 = some v) ∧
    ((describeStyle cache resp).2 ≠ cache →
      resp.success = true ∧ ∃ v, resp.vector = some v ∧
        (describeStyle cache resp).2 = some v) := by
  obtain ⟨ok, succ, vec⟩ := resp
  cases ok <;> cases succ <;> cases vec <;>
    simp [constructPreferenceVector, updatePreferenceVector, uploadImage,
      describeStyle, getPreferenceVector]

/-- Witness for C10: a failed call keeps the empty cache; a successful call
carrying a vector is the only way the cache moves. -/
theorem c10_cache_retained_on_failure_witness :
    constructPreferenceVector none { ok := false, success := false, vector := none } =
      (Except.error "HTTP error", none) ∧
    ((BackendResponse.mk true true (some demoPref)).success = true ∧
      ∃ v, (BackendResponse.mk true true (some demoPref)).vector = some v ∧
        (constructPreferenceVector none (BackendResponse.mk true true (some demoPref))).2 = some v) :=
  ⟨((c10_cache_retained_on_failure none
      { ok := false, success := false, vector := none }).1 rfl).1,
   (c10_cache_retained_on_failure none
      (BackendResponse.mk true true (some demoPref))).2.1
      (by simp [constructPreferenceVector])⟩

end Thuli
